import Mathlib

/-!
Shallow embedding of `image_compare.py` (pocockn/image-compare).

The source program compares two raster images: it decodes both paths with
`cv2.imread`, converts them to grayscale with `cv2.cvtColor`, scores them with
`skimage.measure.compare_ssim(full=True)`, and — when the score is strictly
below `ssim_threshold` and `save_diff_to` is not None — renders an annotated
side-by-side diff artifact via `_save_image_diff`, which writes the two
annotated images to two fixed temporary PNG files, recombines them with PIL,
saves the composition, and removes the temporaries in a `finally` block.

Modelling conventions:
 * Pixels are BGR triples of naturals (cv2 ordering); an image is a row-major
   grid of pixels, a grayscale grid a row-major grid of naturals.
 * The filesystem is a map from path strings to optional files; a file either
   decodes to an image or is garbage (`cv2.imread` returns None for a missing,
   unreadable or undecodable path).
 * Real arithmetic of the SSIM pipeline is carried out exactly over ℚ.
 * Exceptions that the Python `try:`/`except:` block of `_save_image_diff` can
   swallow (PIL `Image.open` of either temporary, `Image.save`) are modelled
   by failure-injection flags in `RenderEnv`; `RenderEnv.ok` is the
   failure-free environment.  `cv2.imwrite` of the temporaries is modelled as
   succeeding, and stdout printing is not modelled.
-/

/-- A pixel in cv2 channel order: (blue, green, red). -/
abbrev Pixel := Nat × Nat × Nat

/-- A colour image as loaded by `cv2.imread`: a row-major grid of BGR pixels. -/
structure Img where
  data : List (List Pixel)
deriving DecidableEq

def Img.height (i : Img) : Nat := i.data.length

def Img.width (i : Img) : Nat := (i.data.headD []).length

/-- Pixel lookup; out-of-range indices give the black background pixel,
matching the background fill of a fresh PIL RGB canvas. -/
def Img.pixAt (i : Img) (x y : Nat) : Pixel := (i.data.getD y []).getD x (0, 0, 0)

/-- A grayscale intensity grid as produced by `cv2.cvtColor(..., COLOR_BGR2GRAY)`. -/
structure Gray where
  data : List (List Nat)
deriving DecidableEq

def Gray.height (g : Gray) : Nat := g.data.length

def Gray.width (g : Gray) : Nat := (g.data.headD []).length

/-- Intensity lookup, row `i`, column `j`; out-of-range gives 0. -/
def Gray.gval (g : Gray) (i j : Nat) : Nat := (g.data.getD i []).getD j 0

/-- BGR → grayscale per cv2: round(0.299 R + 0.587 G + 0.114 B), in fixed point. -/
def bgrToGray (p : Pixel) : Nat := (299 * p.2.2 + 587 * p.2.1 + 114 * p.1 + 500) / 1000

/-- Model of `cv2.cvtColor(img, cv2.COLOR_BGR2GRAY)` (lines 50-51). -/
def cvtGray (i : Img) : Gray := ⟨i.data.map (fun row => row.map bgrToGray)⟩

/-- Image file formats relevant to the artifact-writing step. -/
inductive Fmt where
  | png
  | jpeg
  | other
deriving DecidableEq

/-- A file on storage: either a decodable raster image stored in a given
format, or undecodable bytes. -/
inductive File where
  | image (i : Img) (fmt : Fmt)
  | garbage
deriving DecidableEq

/-- The stored format of a file, when it is an image. -/
def fileFmt : File → Option Fmt
  | .image _ f => some f
  | .garbage => none

/-- The filesystem: a map from path to file. -/
def Fs := String → Option File

def fsWrite (fs : Fs) (p : String) (f : File) : Fs :=
  fun q => if q = p then some f else fs q

def fsRemove (fs : Fs) (p : String) : Fs :=
  fun q => if q = p then none else fs q

/-- Model of `cv2.imread` (lines 46-47): `None` (here `none`) when the path is
missing, unreadable or not a decodable image. -/
def imread (fs : Fs) (path : String) : Option Img :=
  match fs path with
  | some (.image i _) => some i
  | _ => none

/-! ### SSIM scoring (`skimage.measure.compare_ssim`, line 57)

`compare_ssim` is called with two equally-shaped uint8 grayscale grids and
`full=True`, hence with its defaults: `win_size = 7`, uniform (non-Gaussian)
windows, sample covariance normalisation `NP/(NP-1)` with `NP = 49`, and
`data_range = 255`, giving `C1 = (0.01*255)^2` and `C2 = (0.03*255)^2`.
The scalar score is the mean of the per-window SSIM values over all windows
that lie fully inside the image, which is exactly skimage's
`crop(S, pad).mean()`.  The returned full map is modelled as the grid of
fully-interior window values (border values, which skimage obtains by reflect
padding, are not needed by any property below). -/

def ssimC1 : ℚ := ((255 : ℚ) / 100) ^ 2

def ssimC2 : ℚ := ((3 * 255 : ℚ) / 100) ^ 2

def covNorm : ℚ := (49 : ℚ) / 48

def mean (l : List ℚ) : ℚ := l.sum / (l.length : ℚ)

/-- The 49 intensities of the 7×7 window whose top-left corner is (i, j). -/
def winVals (g : Gray) (i j : Nat) : List ℚ :=
  (List.range 7).flatMap (fun di => (List.range 7).map (fun dj => (g.gval (i + di) (j + dj) : ℚ)))

def winMean (g : Gray) (i j : Nat) : ℚ := mean (winVals g i j)

def winMeanSq (g : Gray) (i j : Nat) : ℚ :=
  mean ((winVals g i j).map (fun v => v * v))

def winMeanProd (gx gy : Gray) (i j : Nat) : ℚ :=
  mean (((winVals gx i j).zip (winVals gy i j)).map (fun p => p.1 * p.2))

/-- Per-window SSIM value at window top-left (i, j): the standard
luminance/contrast/structure product used by skimage. -/
def ssimAt (gx gy : Gray) (i j : Nat) : ℚ :=
  let ux := winMean gx i j
  let uy := winMean gy i j
  let vx := covNorm * (winMeanSq gx i j - ux * ux)
  let vy := covNorm * (winMeanSq gy i j - uy * uy)
  let vxy := covNorm * (winMeanProd gx gy i j - ux * uy)
  ((2 * ux * uy + ssimC1) * (2 * vxy + ssimC2)) /
    ((ux * ux + uy * uy + ssimC1) * (vx + vy + ssimC2))

/-- The grid of per-window SSIM values over all fully-interior windows. -/
def ssimMap (gx gy : Gray) : List (List ℚ) :=
  (List.range (gx.height - 6)).map (fun i =>
    (List.range (gx.width - 6)).map (fun j => ssimAt gx gy i j))

/-- The scalar SSIM score: mean of the per-window values. -/
def ssimScore (gx gy : Gray) : ℚ := mean (ssimMap gx gy).flatten

/-- Errors `compare_images` can raise: a failed decode (`cv2.cvtColor` on the
`None` returned by `cv2.imread`), and the two `ValueError`s of
`compare_ssim` (shape mismatch, checked first; window larger than the image,
checked second). -/
inductive CmpError where
  | decodeError
  | dimensionMismatch
  | winSizeError
deriving DecidableEq

/-- Model of `skimage.measure.compare_ssim(g1, g2, full=True)`: fails when the
two grids differ in shape, then when the 7×7 window exceeds the image extent;
otherwise returns the scalar score and the dissimilarity map. -/
def compare_ssim (g1 g2 : Gray) : Except CmpError (ℚ × List (List ℚ)) :=
  if g1.height = g2.height ∧ g1.width = g2.width then
    if 7 ≤ g1.height ∧ 7 ≤ g1.width then .ok (ssimScore g1 g2, ssimMap g1 g2)
    else .error .winSizeError
  else .error .dimensionMismatch

/-! ### Diff rendering (lines 60-75) -/

/-- numpy `(diff * 255).astype('uint8')` (line 60): scale, truncate toward
zero, wrap modulo 256. -/
def toU8 (q : ℚ) : Nat :=
  (Int.emod (Int.tdiv (255 * q).num ((255 * q).den : Int)) 256).toNat

def mapToU8 (m : List (List ℚ)) : List (List Nat) := m.map (fun row => row.map toU8)

/-- Between-class measure maximised by Otsu's method at split level `t`
(class 0 is the values ≤ t): weight₀ · weight₁ · (mean₀ − mean₁)². -/
def classVar (vals : List Nat) (t : Nat) : ℚ :=
  let lo := vals.filter (fun v => decide (v ≤ t))
  let hi := vals.filter (fun v => decide (t < v))
  if lo.isEmpty || hi.isEmpty then 0
  else
    (lo.length : ℚ) * (hi.length : ℚ) *
      (mean (lo.map (fun v => (v : ℚ))) - mean (hi.map (fun v => (v : ℚ)))) ^ 2

/-- Otsu's automatic level: the first level in 0..255 with maximal
between-class measure, as in cv2's strict-improvement scan. -/
def otsuLevel (vals : List Nat) : Nat :=
  (List.range 256).foldl (fun best t => if classVar vals best < classVar vals t then t else best) 0

/-- `cv2.threshold(diff, 0, 255, THRESH_BINARY_INV | THRESH_OTSU)[1]`
(lines 64-65): pick the Otsu level over the image histogram, then map each
value v to 0 if v > level else 255. -/
def threshBinInv (m : List (List Nat)) : List (List Nat) :=
  let t := otsuLevel m.flatten
  m.map (fun row => row.map (fun v => if t < v then 0 else 255))

/-- An axis-aligned bounding box, as returned by `cv2.boundingRect`. -/
structure Rect where
  x : Nat
  y : Nat
  w : Nat
  h : Nat
deriving DecidableEq

/-- Structural index-aware map, used to pair grid entries with coordinates. -/
def idxMap {α β : Type} (f : Nat → α → β) : Nat → List α → List β
  | _, [] => []
  | n, a :: as => f n a :: idxMap f (n + 1) as

/-- Coordinates (x, y) of the nonzero pixels of a binary map. -/
def whitePoints (m : List (List Nat)) : List (Nat × Nat) :=
  (idxMap (fun y row => idxMap (fun x v => ((x, y), v)) 0 row) 0 m).flatten.filterMap
    (fun pv => if pv.2 ≠ 0 then some pv.1 else none)

/-- Chebyshev closeness of coordinates: within one pixel. -/
def near (a b : Nat) : Bool := decide (a ≤ b + 1) && decide (b ≤ a + 1)

def touches (c d : List (Nat × Nat)) : Bool :=
  c.any (fun p => d.any (fun q => near p.1 q.1 && near p.2 q.2))

def mergeInto (acc : List (List (Nat × Nat))) (c : List (Nat × Nat)) :
    List (List (Nat × Nat)) :=
  let parts := acc.partition (fun d => touches c d)
  (c ++ parts.1.flatten) :: parts.2

def mergeStep (cs : List (List (Nat × Nat))) : List (List (Nat × Nat)) :=
  cs.foldl mergeInto []

def iterMerge : Nat → List (List (Nat × Nat)) → List (List (Nat × Nat))
  | 0, cs => cs
  | n + 1, cs => iterMerge n (mergeStep cs)

/-- The 8-connected components of the nonzero region of a binary map. -/
def components (m : List (List Nat)) : List (List (Nat × Nat)) :=
  let pts := whitePoints m
  iterMerge pts.length (pts.map (fun p => [p]))

/-- `cv2.boundingRect` of a point set: minimal box, width/height inclusive. -/
def boundingRect (c : List (Nat × Nat)) : Rect :=
  match c with
  | [] => ⟨0, 0, 0, 0⟩
  | p :: ps =>
      let x0 := ps.foldl (fun m q => Nat.min m q.1) p.1
      let y0 := ps.foldl (fun m q => Nat.min m q.2) p.2
      let x1 := ps.foldl (fun m q => Nat.max m q.1) p.1
      let y1 := ps.foldl (fun m q => Nat.max m q.2) p.2
      ⟨x0, y0, x1 - x0 + 1, y1 - y0 + 1⟩

/-- `cv2.findContours(..., RETR_EXTERNAL, ...)` followed by `cv2.boundingRect`
on each contour (lines 69-73), modelled as the bounding boxes of the
8-connected nonzero components of the binarized map. -/
def findDiffRegions (m : List (List Nat)) : List Rect :=
  (components m).map boundingRect

/-- The rectangle colour (0, 0, 255): red in BGR. -/
def redPixel : Pixel := (0, 0, 255)

/-- Whether pixel (px, py) lies on the 2-pixel-wide border band drawn by
`cv2.rectangle(img, (x, y), (x+w, y+h), (0,0,255), 2)` (approximating cv2's
rasterisation of a thickness-2 outline). -/
def onRectBorder (r : Rect) (px py : Nat) : Bool :=
  let x2 := r.x + r.w
  let y2 := r.y + r.h
  (decide (r.x - 1 ≤ px) && decide (px ≤ x2 + 1) &&
      decide (r.y - 1 ≤ py) && decide (py ≤ y2 + 1)) &&
    !(decide (r.x + 2 ≤ px) && decide (px ≤ x2 - 2) &&
        decide (r.y + 2 ≤ py) && decide (py ≤ y2 - 2))

/-- The rectangle-drawing loop of lines 72-75 applied to one image: every
pixel on the border band of some extracted region is painted red. -/
def drawRects (rs : List Rect) (img : Img) : Img :=
  ⟨idxMap (fun py row =>
      idxMap (fun px p => if rs.any (fun r => onRectBorder r px py) then redPixel else p) 0 row)
    0 img.data⟩

/-- The regions extracted from the dissimilarity map of the two images
(lines 60-70): rescale to uint8, binarize, find external contours, box them. -/
def diffRegions (i1 i2 : Img) : List Rect :=
  findDiffRegions (threshBinInv (mapToU8 (ssimMap (cvtGray i1) (cvtGray i2))))

/-- Lines 60-75 as a function of the two decoded images: binarize the
dissimilarity map, extract regions, and draw the highlight rectangles onto
both images. -/
def annotate_images (i1 i2 : Img) : Img × Img :=
  (drawRects (diffRegions i1 i2) i1, drawRects (diffRegions i1 i2) i2)

/-! ### Artifact composition and persistence (`_save_image_diff`, lines 84-123) -/

/-- Failure injection for the operations inside the `try:` block of
`_save_image_diff`: `Image.open` of either temporary and `Image.save` of the
destination can each raise.  All such exceptions reach the bare `except:`. -/
structure RenderEnv where
  openOneFails : Bool
  openTwoFails : Bool
  saveFails : Bool
deriving DecidableEq

/-- Whether some operation of the `try:` block raises. -/
def RenderEnv.hasFailure (e : RenderEnv) : Bool :=
  e.openOneFails || e.openTwoFails || e.saveFails

/-- The failure-free environment. -/
def RenderEnv.ok : RenderEnv := ⟨false, false, false⟩

/-- The fixed temporary path of line 99. -/
def tempImageOne : String := ".temp-image-diff-one.png"

/-- The fixed temporary path of line 100. -/
def tempImageTwo : String := ".temp-image-diff-two.png"

/-- Lines 101-102: `cv2.imwrite` of the two annotated images to the fixed
temporary paths, overwriting whatever was there. -/
def writeTempFiles (fs : Fs) (i1 i2 : Img) : Fs :=
  fsWrite (fsWrite fs tempImageOne (.image i1 .png)) tempImageTwo (.image i2 .png)

/-- PIL composition (lines 105-114): a fresh canvas of width the sum of the
two widths and height their maximum, first image pasted at the origin, second
immediately to its right; uncovered canvas keeps the black background. -/
def composeSideBySide (a b : Img) : Img :=
  ⟨(List.range (max a.height b.height)).map (fun y =>
      (List.range (a.width + b.width)).map (fun x =>
        if x < a.width then a.pixAt x y else b.pixAt (x - a.width) y))⟩

/-- Model of `_save_image_diff` (lines 84-123): write the two temporaries,
then inside `try:` open them, compose side by side and save to `file_path`
(skipped entirely when the environment injects an exception, which the bare
`except: pass` swallows), and in `finally:` remove both temporaries.
PNG round-tripping is lossless, so opening the just-written temporaries
yields the annotated images themselves. -/
def save_image_diff (env : RenderEnv) (fs : Fs) (image_one image_two : Img)
    (file_path : String) : Fs :=
  let fs2 := writeTempFiles fs image_one image_two
  let fs3 :=
    if env.hasFailure then fs2
    else fsWrite fs2 file_path (.image (composeSideBySide image_one image_two) .png)
  fsRemove (fsRemove fs3 tempImageOne) tempImageTwo

/-- Model of `compare_images` (lines 22-81).  Returns the comparison outcome
together with the final filesystem; an exception leaves the filesystem as it
was (all writes happen inside `_save_image_diff`, after scoring succeeded). -/
def compare_images (env : RenderEnv) (fs : Fs) (image_one image_two : String)
    (ssim_threshold : ℚ := 1) (save_diff_to : Option String := some "my-diff.png") :
    Except CmpError ℚ × Fs :=
  match imread fs image_one, imread fs image_two with
  | some i1, some i2 =>
      match compare_ssim (cvtGray i1) (cvtGray i2) with
      | .error e => (.error e, fs)
      | .ok (score, _diff) =>
          if score < ssim_threshold then
            match save_diff_to with
            | some p =>
                let ann := annotate_images i1 i2
                (.ok score, save_image_diff env fs ann.1 ann.2 p)
            | none => (.ok score, fs)
          else (.ok score, fs)
  | _, _ => (.error .decodeError, fs)

/-- True when the comparison returned a score strictly below `t`. -/
def scoreBelow (r : Except CmpError ℚ) (t : ℚ) : Bool :=
  match r with
  | .ok s => decide (s < t)
  | .error _ => false

/-- Whether the character list `s` ends with `suf`. -/
def chSuffix (s suf : List Char) : Bool :=
  decide (s.drop (s.length - suf.length) = suf) && decide (suf.length ≤ s.length)

/-- The format a destination path's extension asks for. -/
def impliedFmt (path : String) : Fmt :=
  let cs := path.toList
  if chSuffix cs ".png".toList then .png
  else if chSuffix cs ".jpg".toList || chSuffix cs ".jpeg".toList then .jpeg
  else .other

/-! ### Concrete fixtures used by witnesses and counterexamples -/

/-- A solid w×h image. -/
def constImg (w h : Nat) (p : Pixel) : Img := ⟨List.replicate h (List.replicate w p)⟩

def imgA : Img := constImg 7 7 (10, 10, 10)

def brightRow : List Pixel :=
  [(10, 10, 10), (10, 10, 10), (10, 10, 10), (250, 250, 250),
   (10, 10, 10), (10, 10, 10), (10, 10, 10)]

/-- `imgA` with one bright pixel at (3, 3). -/
def imgB : Img :=
  ⟨List.replicate 3 (List.replicate 7 ((10, 10, 10) : Pixel)) ++ [brightRow] ++
    List.replicate 3 (List.replicate 7 ((10, 10, 10) : Pixel))⟩

/-- A small filesystem holding the fixture images. -/
def wFs : Fs := fun p =>
  if p = "one.png" then some (.image imgA .png)
  else if p = "two.png" then some (.image imgB .png)
  else if p = "same.png" then some (.image imgA .png)
  else if p = "tiny.png" then some (.image (constImg 1 1 (0, 0, 0)) .png)
  else if p = "small.png" then some (.image (constImg 2 2 (0, 0, 0)) .png)
  else if p = "bad.bin" then some .garbage
  else none

/-! ### List arithmetic lemmas -/

theorem two_mul_sum_le (x : ℚ) (l : List ℚ) :
    2 * (x * l.sum) ≤ (l.length : ℚ) * (x * x) + (l.map (fun v => v * v)).sum := by
  induction l with
  | nil => simp
  | cons y ys ih =>
      simp only [List.sum_cons, List.map_cons, List.length_cons]
      push_cast
      nlinarith [two_mul_le_add_sq x y]

theorem sq_sum_le_len_mul_sum_sq (l : List ℚ) :
    l.sum * l.sum ≤ (l.length : ℚ) * (l.map (fun v => v * v)).sum := by
  induction l with
  | nil => simp
  | cons y ys ih =>
      simp only [List.sum_cons, List.map_cons, List.length_cons]
      push_cast
      nlinarith [two_mul_sum_le y ys]

theorem sq_mean_le_mean_sq (l : List ℚ) (h : l ≠ []) :
    mean l * mean l ≤ mean (l.map (fun v => v * v)) := by
  have hn : 0 < (l.length : ℚ) := by
    have := List.length_pos.mpr h
    exact_mod_cast this
  unfold mean
  rw [List.length_map, div_mul_div_comm, div_le_div_iff₀ (by positivity) hn]
  nlinarith [sq_sum_le_len_mul_sum_sq l]

theorem zip_self_map_mul (l : List ℚ) :
    (l.zip l).map (fun p => p.1 * p.2) = l.map (fun v => v * v) := by
  induction l with
  | nil => rfl
  | cons y ys ih => simpa using ih

theorem winVals_length (g : Gray) (i j : Nat) : (winVals g i j).length = 49 := rfl

theorem winVals_ne_nil (g : Gray) (i j : Nat) : winVals g i j ≠ [] := by
  intro h
  have := winVals_length g i j
  rw [h] at this
  simp at this

theorem winMeanProd_self (g : Gray) (i j : Nat) :
    winMeanProd g g i j = winMeanSq g i j := by
  unfold winMeanProd winMeanSq
  rw [zip_self_map_mul]

theorem ssimC1_pos : 0 < ssimC1 := by norm_num [ssimC1]

theorem ssimC2_pos : 0 < ssimC2 := by norm_num [ssimC2]

theorem covNorm_pos : 0 < covNorm := by norm_num [covNorm]

/-- On identical inputs every window's SSIM value is exactly 1. -/
theorem ssimAt_self (g : Gray) (i j : Nat) : ssimAt g g i j = 1 := by
  unfold ssimAt
  dsimp only
  rw [winMeanProd_self]
  set u := winMean g i j with hu
  set s := winMeanSq g i j with hs
  have hvar : u * u ≤ s := by
    rw [hu, hs]
    exact sq_mean_le_mean_sq _ (winVals_ne_nil g i j)
  have h1 : 0 < u * u + u * u + ssimC1 := by nlinarith [ssimC1_pos, mul_self_nonneg u]
  have h2 : 0 < covNorm * (s - u * u) + covNorm * (s - u * u) + ssimC2 := by
    nlinarith [ssimC2_pos, covNorm_pos, hvar]
  have hnum : (2 * u * u + ssimC1) * (2 * (covNorm * (s - u * u)) + ssimC2) =
      (u * u + u * u + ssimC1) * (covNorm * (s - u * u) + covNorm * (s - u * u) + ssimC2) := by
    ring
  rw [hnum]
  exact div_self (by positivity)

theorem mean_of_ones (l : List ℚ) (hne : l ≠ []) (h1 : ∀ v ∈ l, v = 1) : mean l = 1 := by
  have hsum : l.sum = (l.length : ℚ) := by
    induction l with
    | nil => simp
    | cons y ys ih =>
        have hy := h1 y (by simp)
        have hys : ∀ v ∈ ys, v = 1 := fun v hv => h1 v (by simp [hv])
        simp only [List.sum_cons, List.length_cons, hy]
        rcases ys with _ | ⟨z, zs⟩
        · simp
        · rw [ih (by simp) hys]
          push_cast
          ring
  have hn : 0 < (l.length : ℚ) := by
    have := List.length_pos.mpr hne
    exact_mod_cast this
  unfold mean
  rw [hsum, div_self (ne_of_gt hn)]

/-- On identical inputs the scalar SSIM score is exactly 1 (the grid must be
at least 7×7 for at least one window to exist). -/
theorem ssimScore_self (g : Gray) (hh : 7 ≤ g.height) (hw : 7 ≤ g.width) :
    ssimScore g g = 1 := by
  unfold ssimScore
  apply mean_of_ones
  · have hmem : ssimAt g g 0 0 ∈ (ssimMap g g).flatten := by
      apply List.mem_flatten.mpr
      refine ⟨(List.range (g.width - 6)).map (fun j => ssimAt g g 0 j), ?_, ?_⟩
      · unfold ssimMap
        apply List.mem_map.mpr
        exact ⟨0, by simp [List.mem_range]; omega, rfl⟩
      · apply List.mem_map.mpr
        exact ⟨0, by simp [List.mem_range]; omega, rfl⟩
    exact List.ne_nil_of_mem hmem
  · intro v hv
    rcases List.mem_flatten.mp hv with ⟨row, hrow, hvrow⟩
    rcases List.mem_map.mp hrow with ⟨i, _, hi⟩
    rcases List.mem_map.mp (hi ▸ hvrow) with ⟨j, _, hj⟩
    rw [← hj]
    exact ssimAt_self g i j

/-! ### Shape lemmas for the image pipeline -/

theorem getD_range_map {α : Type} (f : Nat → α) (n i : Nat) (d : α) :
    ((List.range n).map f).getD i d = if i < n then f i else d := by
  rcases lt_or_ge i n with h | h
  · rw [List.getD_eq_getElem?_getD, List.getElem?_map, List.getElem?_range h]
    simp [h]
  · rw [List.getD_eq_default _ _ (by simpa using h)]
    simp [Nat.not_lt.mpr h]

theorem cvtGray_height (i : Img) : (cvtGray i).height = i.height := by
  simp [cvtGray, Gray.height, Img.height]

theorem cvtGray_width (i : Img) : (cvtGray i).width = i.width := by
  unfold cvtGray Gray.width Img.width
  rcases hd : i.data with _ | ⟨r, rs⟩ <;> simp

theorem idxMap_length {α β : Type} (f : Nat → α → β) (n : Nat) (l : List α) :
    (idxMap f n l).length = l.length := by
  induction l generalizing n with
  | nil => rfl
  | cons a as ih => simp [idxMap, ih]

theorem drawRects_height (rs : List Rect) (i : Img) : (drawRects rs i).height = i.height := by
  simp [drawRects, Img.height, idxMap_length]

theorem drawRects_width (rs : List Rect) (i : Img) : (drawRects rs i).width = i.width := by
  unfold drawRects Img.width
  rcases hd : i.data with _ | ⟨r, rs2⟩
  · rfl
  · simp [idxMap, idxMap_length]

theorem annotate_fst_width (i1 i2 : Img) : (annotate_images i1 i2).1.width = i1.width :=
  drawRects_width _ _

theorem annotate_snd_width (i1 i2 : Img) : (annotate_images i1 i2).2.width = i2.width :=
  drawRects_width _ _

theorem annotate_fst_height (i1 i2 : Img) : (annotate_images i1 i2).1.height = i1.height :=
  drawRects_height _ _

theorem annotate_snd_height (i1 i2 : Img) : (annotate_images i1 i2).2.height = i2.height :=
  drawRects_height _ _

/-! ### Composition lemmas -/

theorem compose_height (a b : Img) :
    (composeSideBySide a b).height = max a.height b.height := by
  simp [composeSideBySide, Img.height]

theorem compose_width (a b : Img) (h : 0 < max a.height b.height) :
    (composeSideBySide a b).width = a.width + b.width := by
  unfold composeSideBySide Img.width
  rcases hm : max a.height b.height with _ | k
  · omega
  · rw [List.range_succ_eq_map]
    simp

theorem compose_pix_lt (a b : Img) (x y : Nat) (hx : x < a.width) :
    (composeSideBySide a b).pixAt x y = a.pixAt x y := by
  unfold composeSideBySide Img.pixAt
  rcases lt_or_ge y (max a.height b.height) with hy | hy
  · simp only [getD_range_map, if_pos hy]
    rw [if_pos (show x < a.width + b.width by omega), if_pos hx]
  · have h1 : a.data.getD y [] = [] :=
      List.getD_eq_default _ _ (le_trans (le_max_left _ _) hy)
    simp only [getD_range_map, if_neg (Nat.not_lt.mpr hy), h1]

theorem compose_pix_ge (a b : Img) (x y : Nat) (hx1 : a.width ≤ x)
    (hx2 : x < a.width + b.width) :
    (composeSideBySide a b).pixAt x y = b.pixAt (x - a.width) y := by
  unfold composeSideBySide Img.pixAt
  rcases lt_or_ge y (max a.height b.height) with hy | hy
  · simp only [getD_range_map, if_pos hy]
    rw [if_pos hx2, if_neg (Nat.not_lt.mpr hx1)]
  · have h1 : b.data.getD y [] = [] :=
      List.getD_eq_default _ _ (le_trans (le_max_right _ _) hy)
    simp only [getD_range_map, if_neg (Nat.not_lt.mpr hy), h1]
    simp

/-! ### Filesystem lemmas -/

theorem fsWrite_same (fs : Fs) (p : String) (f : File) : fsWrite fs p f p = some f := by
  simp [fsWrite]

theorem fsWrite_other (fs : Fs) (p : String) (f : File) (q : String) (h : q ≠ p) :
    fsWrite fs p f q = fs q := by
  simp [fsWrite, h]

theorem fsRemove_same (fs : Fs) (p : String) : fsRemove fs p p = none := by
  simp [fsRemove]

theorem fsRemove_other (fs : Fs) (p q : String) (h : q ≠ p) : fsRemove fs p q = fs q := by
  simp [fsRemove, h]

theorem writeTempFiles_other (fs : Fs) (i1 i2 : Img) (q : String)
    (h1 : q ≠ tempImageOne) (h2 : q ≠ tempImageTwo) :
    writeTempFiles fs i1 i2 q = fs q := by
  unfold writeTempFiles
  rw [fsWrite_other _ _ _ _ h2, fsWrite_other _ _ _ _ h1]

/-! ### `_save_image_diff` lemmas -/

theorem save_temp_one_gone (env : RenderEnv) (fs : Fs) (a b : Img) (p : String) :
    save_image_diff env fs a b p tempImageOne = none := by
  simp only [save_image_diff]
  rw [fsRemove_other _ _ _ (by decide), fsRemove_same]

theorem save_temp_two_gone (env : RenderEnv) (fs : Fs) (a b : Img) (p : String) :
    save_image_diff env fs a b p tempImageTwo = none := by
  simp only [save_image_diff]
  rw [fsRemove_same]

theorem save_ok_dest (fs : Fs) (a b : Img) (p : String)
    (h1 : p ≠ tempImageOne) (h2 : p ≠ tempImageTwo) :
    save_image_diff RenderEnv.ok fs a b p p =
      some (.image (composeSideBySide a b) .png) := by
  simp only [save_image_diff]
  rw [fsRemove_other _ _ _ h2, fsRemove_other _ _ _ h1]
  rw [if_neg (by simp [RenderEnv.hasFailure, RenderEnv.ok])]
  exact fsWrite_same _ _ _

theorem save_fail_dest (env : RenderEnv) (fs : Fs) (a b : Img) (p : String)
    (henv : env.hasFailure = true) (h1 : p ≠ tempImageOne) (h2 : p ≠ tempImageTwo) :
    save_image_diff env fs a b p p = fs p := by
  simp only [save_image_diff, henv]
  rw [fsRemove_other _ _ _ h2, fsRemove_other _ _ _ h1]
  simp only [if_true]
  exact writeTempFiles_other _ _ _ _ h1 h2

/-! ### `compare_images` branch lemmas -/

theorem compare_ssim_ok (g1 g2 : Gray)
    (hdim : g1.height = g2.height ∧ g1.width = g2.width)
    (hwin : 7 ≤ g1.height ∧ 7 ≤ g1.width) :
    compare_ssim g1 g2 = .ok (ssimScore g1 g2, ssimMap g1 g2) := by
  unfold compare_ssim
  rw [if_pos hdim, if_pos hwin]

theorem compare_decode_fail (env : RenderEnv) (fs : Fs) (p1 p2 : String) (t : ℚ)
    (save : Option String) (h : imread fs p1 = none ∨ imread fs p2 = none) :
    compare_images env fs p1 p2 t save = (.error .decodeError, fs) := by
  unfold compare_images
  rcases h with h | h
  · rw [h]
  · rw [h]
    cases imread fs p1 <;> rfl

theorem compare_dim_mismatch (env : RenderEnv) (fs : Fs) (p1 p2 : String) (t : ℚ)
    (save : Option String) (i1 i2 : Img)
    (h1 : imread fs p1 = some i1) (h2 : imread fs p2 = some i2)
    (hdim : ¬((cvtGray i1).height = (cvtGray i2).height ∧
        (cvtGray i1).width = (cvtGray i2).width)) :
    compare_images env fs p1 p2 t save = (.error .dimensionMismatch, fs) := by
  unfold compare_images
  simp only [h1, h2]
  unfold compare_ssim
  rw [if_neg hdim]

theorem compare_scored (env : RenderEnv) (fs : Fs) (p1 p2 : String) (t : ℚ)
    (save : Option String) (i1 i2 : Img)
    (h1 : imread fs p1 = some i1) (h2 : imread fs p2 = some i2)
    (hdim : (cvtGray i1).height = (cvtGray i2).height ∧
        (cvtGray i1).width = (cvtGray i2).width)
    (hwin : 7 ≤ (cvtGray i1).height ∧ 7 ≤ (cvtGray i1).width) :
    compare_images env fs p1 p2 t save =
      if ssimScore (cvtGray i1) (cvtGray i2) < t then
        match save with
        | some p =>
            (.ok (ssimScore (cvtGray i1) (cvtGray i2)),
              save_image_diff env fs (annotate_images i1 i2).1 (annotate_images i1 i2).2 p)
        | none => (.ok (ssimScore (cvtGray i1) (cvtGray i2)), fs)
      else (.ok (ssimScore (cvtGray i1) (cvtGray i2)), fs) := by
  unfold compare_images
  simp only [h1, h2]
  rw [compare_ssim_ok _ _ hdim hwin]
  rfl

set_option maxRecDepth 4000

/-! ### Claim theorems -/

/-- Claim C4 (confirmed): on every exit path of the artifact-composition step —
success, or any injected composition/persistence failure (the bare `except:`
branch) — both temporary intermediate files are removed before the call
returns: the final filesystem holds nothing at either temporary path. -/
theorem c4_temp_files_always_removed (env : RenderEnv) (fs : Fs) (a b : Img) (p : String) :
    save_image_diff env fs a b p tempImageOne = none ∧
    save_image_diff env fs a b p tempImageTwo = none :=
  ⟨save_temp_one_gone env fs a b p, save_temp_two_gone env fs a b p⟩

/-- Claim C10 (confirmed): every artifact-composition call first writes its two
temporaries at the fixed relative paths `.temp-image-diff-one.png` and
`.temp-image-diff-two.png` (hence in the current working directory), silently
overwriting whatever the filesystem held at those names and touching no other
path, and `_save_image_diff` factors through this write phase for every input
pair and every destination path: the temporary paths are constants, independent
of the images and of `save_diff_to`. -/
theorem c10_fixed_temp_paths (env : RenderEnv) (fs : Fs) (i1 i2 : Img) (p : String) :
    (∀ q : String, writeTempFiles fs i1 i2 q =
        if q = tempImageTwo then some (.image i2 .png)
        else if q = tempImageOne then some (.image i1 .png)
        else fs q) ∧
    save_image_diff env fs i1 i2 p =
      fsRemove (fsRemove
        (if env.hasFailure then writeTempFiles fs i1 i2
         else fsWrite (writeTempFiles fs i1 i2) p
            (.image (composeSideBySide i1 i2) .png)) tempImageOne) tempImageTwo :=
  ⟨fun _ => rfl, rfl⟩

/-- Claim C5 (confirmed): when the two grayscale grids differ in height or
width, `compare_images` raises the dimension-mismatch error of the scoring
step; no score is returned and the filesystem is untouched, so in particular
no rendering (binarization, contours, rectangles, artifact write) ever becomes
observable. -/
theorem c5_dimension_mismatch_aborts (env : RenderEnv) (fs : Fs) (p1 p2 : String)
    (t : ℚ) (save : Option String) (i1 i2 : Img)
    (h1 : imread fs p1 = some i1) (h2 : imread fs p2 = some i2)
    (hdim : ¬((cvtGray i1).height = (cvtGray i2).height ∧
        (cvtGray i1).width = (cvtGray i2).width)) :
    compare_images env fs p1 p2 t save = (.error .dimensionMismatch, fs) :=
  compare_dim_mismatch env fs p1 p2 t save i1 i2 h1 h2 hdim

/-- Witness for C5 at a 1×1 versus 2×2 fixture pair. -/
theorem c5_witness :
    (imread wFs "tiny.png" = some (constImg 1 1 (0, 0, 0))) ∧
    (imread wFs "small.png" = some (constImg 2 2 (0, 0, 0))) ∧
    ¬((cvtGray (constImg 1 1 (0, 0, 0))).height = (cvtGray (constImg 2 2 (0, 0, 0))).height ∧
        (cvtGray (constImg 1 1 (0, 0, 0))).width = (cvtGray (constImg 2 2 (0, 0, 0))).width) ∧
    compare_images RenderEnv.ok wFs "tiny.png" "small.png" 1 (some "my-diff.png") =
      (.error .dimensionMismatch, wFs) :=
  ⟨by decide, by decide, by decide,
    c5_dimension_mismatch_aborts RenderEnv.ok wFs "tiny.png" "small.png" 1
      (some "my-diff.png") (constImg 1 1 (0, 0, 0)) (constImg 2 2 (0, 0, 0))
      (by decide) (by decide) (by decide)⟩

/-- Claim C6 (confirmed): when either input path fails to decode (missing,
unreadable, or garbage bytes), the whole comparison aborts with the decode
error: no score is returned and the filesystem is untouched, so no partial
result is produced. -/
theorem c6_decode_failure_aborts (env : RenderEnv) (fs : Fs) (p1 p2 : String)
    (t : ℚ) (save : Option String)
    (h : imread fs p1 = none ∨ imread fs p2 = none) :
    compare_images env fs p1 p2 t save = (.error .decodeError, fs) :=
  compare_decode_fail env fs p1 p2 t save h

/-- Witness for C6 at an undecodable fixture file. -/
theorem c6_witness :
    (imread wFs "bad.bin" = none ∨ imread wFs "one.png" = none) ∧
    compare_images RenderEnv.ok wFs "bad.bin" "one.png" 1 (some "my-diff.png") =
      (.error .decodeError, wFs) :=
  ⟨Or.inl (by decide),
    c6_decode_failure_aborts RenderEnv.ok wFs "bad.bin" "one.png" 1 (some "my-diff.png")
      (Or.inl (by decide))⟩

/-- Claim C2 (confirmed): for a pair of pixel-for-pixel identical decodable
input images (large enough for the scorer's 7×7 window, which `compare_ssim`
requires of every input), the comparison returns exactly 1 and leaves the
filesystem untouched — no diff artifact — for every threshold at most 1,
including the default threshold 1, since the score is not strictly below it. -/
theorem c2_identical_images_score_one (env : RenderEnv) (fs : Fs) (p1 p2 : String)
    (save : Option String) (i : Img) (t : ℚ)
    (h1 : imread fs p1 = some i) (h2 : imread fs p2 = some i)
    (hwin : 7 ≤ (cvtGray i).height ∧ 7 ≤ (cvtGray i).width)
    (ht : t ≤ 1) :
    compare_images env fs p1 p2 t save = (.ok 1, fs) := by
  have hsc : ssimScore (cvtGray i) (cvtGray i) = 1 := ssimScore_self _ hwin.1 hwin.2
  rw [compare_scored env fs p1 p2 t save i i h1 h2 ⟨rfl, rfl⟩ hwin, hsc,
    if_neg (not_lt.mpr ht)]

/-- Witness for C2: the same 7×7 fixture under two paths, threshold 1. -/
theorem c2_witness :
    (imread wFs "one.png" = some imgA) ∧ (imread wFs "same.png" = some imgA) ∧
    (7 ≤ (cvtGray imgA).height ∧ 7 ≤ (cvtGray imgA).width) ∧ (1 : ℚ) ≤ 1 ∧
    compare_images RenderEnv.ok wFs "one.png" "same.png" 1 (some "my-diff.png") =
      (.ok 1, wFs) :=
  ⟨by decide, by decide, by decide, le_refl 1,
    c2_identical_images_score_one RenderEnv.ok wFs "one.png" "same.png"
      (some "my-diff.png") imgA 1 (by decide) (by decide) (by decide) (le_refl 1)⟩

/-- Claim C7 (confirmed): a score strictly below the threshold with
`save_diff_to = None` still returns the score, and the filesystem is left
exactly unchanged — no artifact (and no temporary) is created. -/
theorem c7_save_none_no_artifact (env : RenderEnv) (fs : Fs) (p1 p2 : String)
    (t : ℚ) (i1 i2 : Img)
    (h1 : imread fs p1 = some i1) (h2 : imread fs p2 = some i2)
    (hdim : (cvtGray i1).height = (cvtGray i2).height ∧
        (cvtGray i1).width = (cvtGray i2).width)
    (hwin : 7 ≤ (cvtGray i1).height ∧ 7 ≤ (cvtGray i1).width)
    (hs : ssimScore (cvtGray i1) (cvtGray i2) < t) :
    compare_images env fs p1 p2 t none =
      (.ok (ssimScore (cvtGray i1) (cvtGray i2)), fs) := by
  rw [compare_scored env fs p1 p2 t none i1 i2 h1 h2 hdim hwin, if_pos hs]

/-- Witness for C7 on the differing 7×7 fixtures. -/
theorem c7_witness :
    (imread wFs "one.png" = some imgA) ∧ (imread wFs "two.png" = some imgB) ∧
    ssimScore (cvtGray imgA) (cvtGray imgB) < 1 ∧
    compare_images RenderEnv.ok wFs "one.png" "two.png" 1 none =
      (.ok (ssimScore (cvtGray imgA) (cvtGray imgB)), wFs) :=
  ⟨by decide, by decide, by with_unfolding_all decide,
    c7_save_none_no_artifact RenderEnv.ok wFs "one.png" "two.png" 1 imgA imgB
      (by decide) (by decide) (by decide) (by decide)
      (by with_unfolding_all decide)⟩

/-- Claim C3 (confirmed): any injected failure of the composing/persisting step
(the `try:` block of `_save_image_diff`) is absorbed by the bare `except:`:
the call still returns its score normally, and no artifact appears at the
destination (which the claim scopes to an ordinary destination, one distinct
from the temporary names the call scrubs anyway). -/
theorem c3_render_failure_absorbed (env : RenderEnv) (fs : Fs) (p1 p2 p : String)
    (t : ℚ) (i1 i2 : Img)
    (h1 : imread fs p1 = some i1) (h2 : imread fs p2 = some i2)
    (hdim : (cvtGray i1).height = (cvtGray i2).height ∧
        (cvtGray i1).width = (cvtGray i2).width)
    (hwin : 7 ≤ (cvtGray i1).height ∧ 7 ≤ (cvtGray i1).width)
    (hs : ssimScore (cvtGray i1) (cvtGray i2) < t)
    (henv : env.hasFailure = true)
    (hp1 : p ≠ tempImageOne) (hp2 : p ≠ tempImageTwo) :
    (compare_images env fs p1 p2 t (some p)).1 =
        .ok (ssimScore (cvtGray i1) (cvtGray i2)) ∧
    (compare_images env fs p1 p2 t (some p)).2 p = fs p := by
  rw [compare_scored env fs p1 p2 t (some p) i1 i2 h1 h2 hdim hwin, if_pos hs]
  exact ⟨rfl, save_fail_dest env fs _ _ p henv hp1 hp2⟩

/-- Witness for C3 with an injected `Image.save` failure. -/
theorem c3_witness :
    (RenderEnv.mk false false true).hasFailure = true ∧
    ssimScore (cvtGray imgA) (cvtGray imgB) < 1 ∧
    (compare_images ⟨false, false, true⟩ wFs "one.png" "two.png" 1
        (some "my-diff.png")).1 = .ok (ssimScore (cvtGray imgA) (cvtGray imgB)) ∧
    (compare_images ⟨false, false, true⟩ wFs "one.png" "two.png" 1
        (some "my-diff.png")).2 "my-diff.png" = wFs "my-diff.png" := by
  have h := c3_render_failure_absorbed ⟨false, false, true⟩ wFs "one.png" "two.png"
    "my-diff.png" 1 imgA imgB (by decide) (by decide) (by decide) (by decide)
    (by with_unfolding_all decide) (by decide) (by decide) (by decide)
  exact ⟨by decide, by with_unfolding_all decide, h.1, h.2⟩

theorem compare_win_fail (env : RenderEnv) (fs : Fs) (p1 p2 : String) (t : ℚ)
    (save : Option String) (i1 i2 : Img)
    (h1 : imread fs p1 = some i1) (h2 : imread fs p2 = some i2)
    (hdim : (cvtGray i1).height = (cvtGray i2).height ∧
        (cvtGray i1).width = (cvtGray i2).width)
    (hwin : ¬(7 ≤ (cvtGray i1).height ∧ 7 ≤ (cvtGray i1).width)) :
    compare_images env fs p1 p2 t save = (.error .winSizeError, fs) := by
  unfold compare_images
  simp only [h1, h2]
  unfold compare_ssim
  rw [if_pos hdim, if_neg hwin]

/-- Claim C9 (confirmed, strengthened to a two-run hyperproperty): two runs of
`compare_images` on the same two input paths whose files are unchanged between
the runs return identical score outcomes, whatever else the two filesystems
hold and whatever the environments and destination arguments are — the scoring
pipeline is a deterministic function of the two input files. -/
theorem c9_score_deterministic (envA envB : RenderEnv) (fsA fsB : Fs) (p1 p2 : String)
    (t : ℚ) (saveA saveB : Option String)
    (h1 : fsA p1 = fsB p1) (h2 : fsA p2 = fsB p2) :
    (compare_images envA fsA p1 p2 t saveA).1 = (compare_images envB fsB p1 p2 t saveB).1 := by
  have e1 : imread fsA p1 = imread fsB p1 := by unfold imread; rw [h1]
  have e2 : imread fsA p2 = imread fsB p2 := by unfold imread; rw [h2]
  rcases hA : imread fsB p1 with _ | i1
  · rw [compare_decode_fail envA fsA p1 p2 t saveA (Or.inl (e1.trans hA)),
      compare_decode_fail envB fsB p1 p2 t saveB (Or.inl hA)]
  · rcases hB : imread fsB p2 with _ | i2
    · rw [compare_decode_fail envA fsA p1 p2 t saveA (Or.inr (e2.trans hB)),
        compare_decode_fail envB fsB p1 p2 t saveB (Or.inr hB)]
    · by_cases hdim : (cvtGray i1).height = (cvtGray i2).height ∧
          (cvtGray i1).width = (cvtGray i2).width
      · by_cases hwin : 7 ≤ (cvtGray i1).height ∧ 7 ≤ (cvtGray i1).width
        · rw [compare_scored envA fsA p1 p2 t saveA i1 i2 (e1.trans hA) (e2.trans hB) hdim hwin,
            compare_scored envB fsB p1 p2 t saveB i1 i2 hA hB hdim hwin]
          by_cases hsc : ssimScore (cvtGray i1) (cvtGray i2) < t
          · simp only [if_pos hsc]
            cases saveA <;> cases saveB <;> rfl
          · simp only [if_neg hsc]
        · rw [compare_win_fail envA fsA p1 p2 t saveA i1 i2 (e1.trans hA) (e2.trans hB) hdim hwin,
            compare_win_fail envB fsB p1 p2 t saveB i1 i2 hA hB hdim hwin]
      · rw [compare_dim_mismatch envA fsA p1 p2 t saveA i1 i2 (e1.trans hA) (e2.trans hB) hdim,
          compare_dim_mismatch envB fsB p1 p2 t saveB i1 i2 hA hB hdim]

/-- Witness for C9: a second run after the first has written its artifact
still reports the same score. -/
theorem c9_witness :
    ((compare_images RenderEnv.ok wFs "one.png" "two.png" 1 (some "my-diff.png")).2
        "one.png" = wFs "one.png") ∧
    ((compare_images RenderEnv.ok wFs "one.png" "two.png" 1 (some "my-diff.png")).2
        "two.png" = wFs "two.png") ∧
    (compare_images RenderEnv.ok
        (compare_images RenderEnv.ok wFs "one.png" "two.png" 1 (some "my-diff.png")).2
        "one.png" "two.png" 1 (some "my-diff.png")).1 =
      (compare_images RenderEnv.ok wFs "one.png" "two.png" 1 (some "my-diff.png")).1 := by
  have ha : (compare_images RenderEnv.ok wFs "one.png" "two.png" 1 (some "my-diff.png")).2
      "one.png" = wFs "one.png" := by with_unfolding_all decide
  have hb : (compare_images RenderEnv.ok wFs "one.png" "two.png" 1 (some "my-diff.png")).2
      "two.png" = wFs "two.png" := by with_unfolding_all decide
  exact ⟨ha, hb,
    c9_score_deterministic RenderEnv.ok RenderEnv.ok _ wFs "one.png" "two.png" 1
      (some "my-diff.png") (some "my-diff.png") ha hb⟩

/-- Counterexample to Claim C1 as stated: with the score strictly below the
threshold and the non-null destination `.temp-image-diff-one.png` — one of the
two fixed temporary names — no artifact file exists at the destination after
the call returns, because the `finally:` cleanup of `_save_image_diff` removes
that very path after the composition was saved to it. -/
theorem c1_counterexample :
    scoreBelow (compare_images RenderEnv.ok wFs "one.png" "two.png" 1
        (some tempImageOne)).1 1 = true ∧
    (compare_images RenderEnv.ok wFs "one.png" "two.png" 1
        (some tempImageOne)).2 tempImageOne = none := by
  constructor
  · with_unfolding_all decide
  · with_unfolding_all decide

/-- Claim C1 (amended): when the score is strictly below the threshold and the
destination is non-null, not one of the two fixed temporary names, and no
composition failure is injected, the final filesystem holds at the destination
a PNG artifact that is exactly the side-by-side composition of the two
annotated images: its width is the sum of the input widths, its height the
maximum of the input heights, the first annotated image sits at the origin and
the second immediately to its right. -/
theorem c1_artifact_layout (fs : Fs) (p1 p2 p : String) (i1 i2 : Img) (t : ℚ)
    (h1 : imread fs p1 = some i1) (h2 : imread fs p2 = some i2)
    (hdim : (cvtGray i1).height = (cvtGray i2).height ∧
        (cvtGray i1).width = (cvtGray i2).width)
    (hwin : 7 ≤ (cvtGray i1).height ∧ 7 ≤ (cvtGray i1).width)
    (hs : ssimScore (cvtGray i1) (cvtGray i2) < t)
    (hp1 : p ≠ tempImageOne) (hp2 : p ≠ tempImageTwo) :
    (compare_images RenderEnv.ok fs p1 p2 t (some p)).2 p =
      some (.image (composeSideBySide (annotate_images i1 i2).1
        (annotate_images i1 i2).2) .png) ∧
    (composeSideBySide (annotate_images i1 i2).1 (annotate_images i1 i2).2).width =
      i1.width + i2.width ∧
    (composeSideBySide (annotate_images i1 i2).1 (annotate_images i1 i2).2).height =
      max i1.height i2.height ∧
    (∀ x y, x < i1.width →
      (composeSideBySide (annotate_images i1 i2).1 (annotate_images i1 i2).2).pixAt x y =
        (annotate_images i1 i2).1.pixAt x y) ∧
    (∀ x y, i1.width ≤ x → x < i1.width + i2.width →
      (composeSideBySide (annotate_images i1 i2).1 (annotate_images i1 i2).2).pixAt x y =
        (annotate_images i1 i2).2.pixAt (x - i1.width) y) := by
  have hh1 : 7 ≤ i1.height := by rw [← cvtGray_height]; exact hwin.1
  refine ⟨?_, ?_, ?_, ?_, ?_⟩
  · rw [compare_scored RenderEnv.ok fs p1 p2 t (some p) i1 i2 h1 h2 hdim hwin, if_pos hs]
    exact save_ok_dest fs _ _ p hp1 hp2
  · rw [compose_width _ _ (by rw [annotate_fst_height, annotate_snd_height]; omega),
      annotate_fst_width, annotate_snd_width]
  · rw [compose_height, annotate_fst_height, annotate_snd_height]
  · intro x y hx
    exact compose_pix_lt _ _ x y (by rw [annotate_fst_width]; exact hx)
  · intro x y hx1 hx2
    rw [compose_pix_ge _ _ x y (by rw [annotate_fst_width]; exact hx1)
      (by rw [annotate_fst_width, annotate_snd_width]; exact hx2), annotate_fst_width]

/-- Witness for the amended C1 on the differing 7×7 fixtures, destination
`out.png`. -/
theorem c1_witness :
    (imread wFs "one.png" = some imgA) ∧ (imread wFs "two.png" = some imgB) ∧
    ssimScore (cvtGray imgA) (cvtGray imgB) < 1 ∧
    ("out.png" ≠ tempImageOne) ∧ ("out.png" ≠ tempImageTwo) ∧
    (compare_images RenderEnv.ok wFs "one.png" "two.png" 1 (some "out.png")).2 "out.png" =
      some (.image (composeSideBySide (annotate_images imgA imgB).1
        (annotate_images imgA imgB).2) .png) ∧
    (composeSideBySide (annotate_images imgA imgB).1 (annotate_images imgA imgB).2).width =
      imgA.width + imgB.width ∧
    (composeSideBySide (annotate_images imgA imgB).1 (annotate_images imgA imgB).2).height =
      max imgA.height imgB.height := by
  have h := c1_artifact_layout wFs "one.png" "two.png" "out.png" imgA imgB 1
    (by decide) (by decide) (by decide) (by decide) (by with_unfolding_all decide)
    (by decide) (by decide)
  exact ⟨by decide, by decide, by with_unfolding_all decide, by decide, by decide,
    h.1, h.2.1, h.2.2.1⟩

/-- Counterexample to Claim C8 as stated: the code persists the composition
with the hard-coded format argument `png` (line 116), so a destination ending
in `.jpg` — whose extension asks for JPEG — still receives a PNG artifact: the
persisted format is not the one implied by the destination path. -/
theorem c8_counterexample :
    scoreBelow (compare_images RenderEnv.ok wFs "one.png" "two.png" 1
        (some "out.jpg")).1 1 = true ∧
    Option.bind ((compare_images RenderEnv.ok wFs "one.png" "two.png" 1
        (some "out.jpg")).2 "out.jpg") fileFmt = some Fmt.png ∧
    impliedFmt "out.jpg" = Fmt.jpeg ∧ Fmt.png ≠ Fmt.jpeg := by
  refine ⟨?_, ?_, by decide, by decide⟩
  · with_unfolding_all decide
  · with_unfolding_all decide

/-- Claim C8 (amended): when the diff artifact is written, the composed image
is persisted at the destination path always in PNG format — the format
hard-coded by the save call — whatever format the destination's extension
suggests. -/
theorem c8_artifact_saved_as_png (fs : Fs) (p1 p2 p : String) (i1 i2 : Img) (t : ℚ)
    (h1 : imread fs p1 = some i1) (h2 : imread fs p2 = some i2)
    (hdim : (cvtGray i1).height = (cvtGray i2).height ∧
        (cvtGray i1).width = (cvtGray i2).width)
    (hwin : 7 ≤ (cvtGray i1).height ∧ 7 ≤ (cvtGray i1).width)
    (hs : ssimScore (cvtGray i1) (cvtGray i2) < t)
    (hp1 : p ≠ tempImageOne) (hp2 : p ≠ tempImageTwo) :
    Option.bind ((compare_images RenderEnv.ok fs p1 p2 t (some p)).2 p) fileFmt =
      some Fmt.png := by
  rw [compare_scored RenderEnv.ok fs p1 p2 t (some p) i1 i2 h1 h2 hdim hwin, if_pos hs]
  show Option.bind (save_image_diff RenderEnv.ok fs (annotate_images i1 i2).1
    (annotate_images i1 i2).2 p p) fileFmt = some Fmt.png
  rw [save_ok_dest fs _ _ p hp1 hp2]
  rfl

/-- Witness for the amended C8, destination `diff.jpg`. -/
theorem c8_witness :
    (imread wFs "one.png" = some imgA) ∧ (imread wFs "two.png" = some imgB) ∧
    ssimScore (cvtGray imgA) (cvtGray imgB) < 1 ∧
    Option.bind ((compare_images RenderEnv.ok wFs "one.png" "two.png" 1
        (some "diff.jpg")).2 "diff.jpg") fileFmt = some Fmt.png :=
  ⟨by decide, by decide, by with_unfolding_all decide,
    c8_artifact_saved_as_png wFs "one.png" "two.png" "diff.jpg" imgA imgB 1
      (by decide) (by decide) (by decide) (by decide) (by with_unfolding_all decide)
      (by decide) (by decide)⟩
